import Mathlib

/-!
# Verification of the vocabulary-quiz engine (`src/app.py`)

Shallow embedding of the quiz engine of the Flask vocabulary-test
application: the vocabulary-item model and its two grading checks, the
bank parser and loader, the quiz-size computation, quiz assembly, the
answer grader, and the ephemeral quiz-data store.

Python strings are modelled as `List Char` (`Str`), with the string
primitives the code relies on (`str.strip`, `str.lower`, `str.split`)
defined from Python's semantics on the ASCII fragment the program uses.
Python floats and timestamps are idealised as rationals.
-/

set_option autoImplicit false

namespace VocabApp

/-- Python strings, modelled as lists of characters. -/
abbrev Str := List Char

/-- The whitespace characters removed by Python's `str.strip()`
(ASCII fragment). -/
def pyIsSpace (c : Char) : Bool :=
  c = ' ' || c = '\t' || c = '\n' || c = '\x0d' || c = '\x0b' || c = '\x0c'

/-- Python `s.strip()`: drop leading and trailing whitespace. -/
def pyStrip (s : Str) : Str :=
  ((s.dropWhile pyIsSpace).reverse.dropWhile pyIsSpace).reverse

/-- Python `s.lower()` (ASCII fragment): lowercase every character. -/
def pyLower (s : Str) : Str :=
  s.map Char.toLower

/-- Python `s.split(sep)` for a one-character separator: always returns at
least one field; adjacent separators and boundary separators yield empty
fields (`"a&".split('&') == ["a", ""]`, `"".split('&') == [""]`). -/
def pySplit (sep : Char) : Str → List Str
  | [] => [[]]
  | c :: rest =>
    if c = sep then
      [] :: pySplit sep rest
    else
      match pySplit sep rest with
      | [] => [[c]]
      | h :: t => (c :: h) :: t

/-- `str.split` never returns an empty list of fields. -/
theorem pySplit_ne_nil (sep : Char) (s : Str) : pySplit sep s ≠ [] := by
  induction s with
  | nil => simp [pySplit]
  | cons c rest ih =>
    simp only [pySplit]
    split
    · simp
    · split
      · simp
      · simp

/-- The `VocabQuestion` dataclass of `src/app.py` (word, part of speech,
meaning). Fields are stored as given; construction goes through
`mkVocabQuestion`, which performs the `__post_init__` stripping. -/
structure VocabQuestion where
  word : Str
  pos : Str
  meaning : Str
  deriving DecidableEq

/-- `VocabQuestion(word, pos, meaning)`: `__post_init__` strips all three
fields. -/
def mkVocabQuestion (word pos meaning : Str) : VocabQuestion :=
  ⟨pyStrip word, pyStrip pos, pyStrip meaning⟩

namespace VocabQuestion

/-- The `pos_list` property: split `pos` on `'&'` and strip each part. -/
def pos_list (q : VocabQuestion) : List Str :=
  (pySplit '&' q.pos).map pyStrip

/-- The `meaning_list` property: split `meaning` on `'&'` and strip each
part. -/
def meaning_list (q : VocabQuestion) : List Str :=
  (pySplit '&' q.meaning).map pyStrip

end VocabQuestion

/-- The set comprehension `{p.strip() for p in lst if p.strip()}` used on
the learner's submitted lists: strip each entry, keep the non-empty
results, collect into a set. -/
def userCleanSet (l : List Str) : Finset Str :=
  ((l.map pyStrip).filter (fun p => !p.isEmpty)).toFinset

namespace VocabQuestion

/-- `check_answer_mode_a`: the cleaned submitted part-of-speech set must
equal `set(self.pos_list)` and the cleaned submitted meaning set must
equal `set(self.meaning_list)`. -/
def check_answer_mode_a (q : VocabQuestion)
    (user_pos_list user_meaning_list : List Str) : Bool :=
  decide (userCleanSet user_pos_list = q.pos_list.toFinset) &&
    decide (userCleanSet user_meaning_list = q.meaning_list.toFinset)

/-- `check_answer_mode_b`: `user_word.strip().lower() == self.word.lower()`. -/
def check_answer_mode_b (q : VocabQuestion) (user_word : Str) : Bool :=
  decide (pyLower (pyStrip user_word) = pyLower q.word)

end VocabQuestion

example : pySplit '&' ['a', '&'] = [['a'], []] := by decide

example : (mkVocabQuestion ['a', 'p', 'p', 'l', 'e'] ['n'] ['x']).check_answer_mode_b
    ['A', 'p', 'p', 'l', 'e', ' '] = true := by decide

example : (mkVocabQuestion [' '] ['n'] ['x']).check_answer_mode_b [] = true := by decide

example : (mkVocabQuestion ['w'] ['a', '&'] ['m']).check_answer_mode_a
    [['a']] [['m']] = false := by decide

/-! ## Bank parsing (`QuestionBank.load_from_file`) -/

/-- One iteration of the `load_from_file` loop: strip the line, skip it if
blank, split on tab, and build a `VocabQuestion` from the first three
fields when there are at least three. -/
def parseLine (line : Str) : Option VocabQuestion :=
  if pyStrip line = [] then none
  else
    match pySplit '\t' (pyStrip line) with
    | w :: p :: m :: _ => some (mkVocabQuestion w p m)
    | _ => none

/-- `load_from_file` over the already-read lines: collect the questions of
every parseable line, in order. -/
def load_from_file (lines : List Str) : List VocabQuestion :=
  lines.filterMap parseLine

/-! ## Bank loading (`load_banks`) -/

/-- One persisted question record of `banks.json`: either it carries the
three required keys, or a required key is missing (reading it raises
`KeyError`). -/
inductive QRecord where
  | record (word pos meaning : Str)
  | missingField
  deriving DecidableEq

/-- The state of the durable `banks.json` representation: absent,
unreadable or undecodable, or decoded into an ordered name → record-list
mapping. -/
inductive BanksFile where
  | missing
  | corrupt
  | parsed (data : List (Str × List QRecord))

/-- The inner loop of `load_banks` over one bank's records: build every
question, or raise (`none`) at the first record with a missing key. -/
def parseQuestions : List QRecord → Option (List VocabQuestion)
  | [] => some []
  | QRecord.record w p m :: rest =>
    (parseQuestions rest).map (fun qs => mkVocabQuestion w p m :: qs)
  | QRecord.missingField :: _ => none

/-- The outer loop of `load_banks` over the decoded mapping: banks are
added one at a time; an exception while building a bank stops the loop,
and the banks already added are returned. -/
def loadLoop : List (Str × List QRecord) → List (Str × List VocabQuestion)
  | [] => []
  | (name, recs) :: rest =>
    match parseQuestions recs with
    | some qs => (name, qs) :: loadLoop rest
    | none => []

/-- `load_banks`: a missing file yields no banks; an unreadable or
undecodable file is caught and yields whatever was accumulated before the
exception (nothing); a decoded file is processed bank by bank. -/
def load_banks : BanksFile → List (Str × List VocabQuestion)
  | BanksFile.missing => []
  | BanksFile.corrupt => []
  | BanksFile.parsed data => loadLoop data

/-! ## Quiz sizing (`start_quiz`, lines 267–296) -/

/-- Python's `round` on a rational: round half to even. -/
def pyRound (q : ℚ) : ℤ :=
  let f := q.floor
  if q - (f : ℚ) < 1 / 2 then f
  else if q - (f : ℚ) > 1 / 2 then f + 1
  else if f % 2 = 0 then f else f + 1

/-- Python's `int()` applied to a float difference: truncation toward
zero (for a negative argument, the negated floor of the negation). -/
def pyIntTrunc (q : ℚ) : ℤ :=
  if 0 ≤ q then q.floor else -(-q).floor

/-- Truncation toward zero is negative exactly on arguments at most -1;
in particular arguments in (-1, 0) truncate to 0, not to a negative
value. -/
theorem pyIntTrunc_neg_iff (q : ℚ) : pyIntTrunc q < 0 ↔ q ≤ -1 := by
  unfold pyIntTrunc
  by_cases h : 0 ≤ q
  · rw [if_pos h]
    constructor
    · intro hlt
      have h0 : (0 : ℤ) ≤ q.floor := Rat.le_floor.mpr (by exact_mod_cast h)
      omega
    · intro hle
      linarith
  · rw [if_neg h]
    constructor
    · intro hlt
      have h1 : (1 : ℤ) ≤ (-q).floor := by omega
      have h2 : ((1 : ℤ) : ℚ) ≤ -q := Rat.le_floor.mp h1
      have h3 : (1 : ℚ) ≤ -q := by exact_mod_cast h2
      linarith
    · intro hle
      have h2 : ((1 : ℤ) : ℚ) ≤ -q := by push_cast; linarith
      have h1 : (1 : ℤ) ≤ (-q).floor := Rat.le_floor.mpr h2
      omega

/-- The sizing request of `start_quiz`: `count_mode == 'custom'` with a
custom count that parses to an integer (`some n`) or raises `ValueError`
(`none`); or a `count_mode` string that parses as a float ratio; or one
that parses as neither. -/
inductive CountMode where
  | custom (customCount : Option ℤ)
  | ratio (r : ℚ)
  | ratioInvalid

/-- The target-count computation of `start_quiz`: the branch on
`count_mode`, followed by the final clamping to `[1, total_available]`. -/
def computeTargetCount (total_available : ℤ) (cm : CountMode) : ℤ :=
  let t :=
    match cm with
    | CountMode.custom (some requested) =>
      let t0 := min requested total_available
      if t0 < 1 then 1 else t0
    | CountMode.custom none => total_available
    | CountMode.ratio r =>
      min (max 1 (pyRound (total_available * r))) total_available
    | CountMode.ratioInvalid =>
      max 1 (pyRound (total_available * (3 / 4)))
  let t1 := if t > total_available then total_available else t
  if t1 < 1 then 1 else t1

/-! ## Quiz assembly (`start_quiz`, lines 298–317) -/

/-- The quiz payload stored by `start_quiz` (`quiz_data`): the selected
questions, the parallel per-question mode list, the overall test mode and
the start timestamp. -/
structure QuizData where
  questions : List VocabQuestion
  question_modes : List Str
  test_mode : Str
  start_time : ℚ

/-- The mode-assignment loop: one mode per selected question; under
test mode `'C'` a coin decides `'A'` or `'B'` per question, otherwise the
requested mode is used as-is. -/
def assignModes (test_mode : Str) (coin : ℕ → Str) (k : ℕ) : List Str :=
  (List.range k).map (fun i => if test_mode = ['C'] then coin i else test_mode)

/-- Quiz assembly after the random draw: `random.sample` produced the
index list `sel` into the pool and `random.shuffle` has already been
applied to it; the stored questions are the pool entries at those indices
and the mode list is built per selected question. -/
def buildQuizData (pool : List VocabQuestion) (sel : List (Fin pool.length))
    (test_mode : Str) (coin : ℕ → Str) (start_time : ℚ) : QuizData :=
  { questions := sel.map pool.get
    question_modes := assignModes test_mode coin sel.length
    test_mode := test_mode
    start_time := start_time }

/-! ## Answer grading (`submit_answers`, lines 405–443) -/

/-- One field value of a submitted JSON object, as the grading code
consumes it: either it has the shape the grader iterates or strips
(`ok`), or it is a value of another type on which that operation raises
`TypeError`/`AttributeError` (`bad`). A string in a list position is
`ok`: Python iterates it as its one-character strings. -/
inductive PyField (α : Type) where
  | ok (val : α)
  | bad
  deriving DecidableEq

/-- One entry of the submitted `answers` array: a JSON object carrying
the values that `.get('pos', [])`, `.get('meaning', [])` and
`.get('word', '')` produce (an absent key yields the well-typed default),
or a value of some other shape, on which `.get` itself raises
`AttributeError`. -/
inductive Submission where
  | dict (pos : PyField (List Str)) (meaning : PyField (List Str))
      (word : PyField Str)
  | malformed
  deriving DecidableEq

/-- A submission entry all of whose field values are well-typed for the
grading code: a dict whose `pos`/`meaning` values are lists of strings
and whose `word` value is a string. -/
def Submission.wellFormed : Submission → Bool
  | Submission.dict (PyField.ok _) (PyField.ok _) (PyField.ok _) => true
  | _ => false

/-- `user_answers[i] if i < len(user_answers) else {}`; the empty dict
yields the default (well-typed) empty answers. -/
def getUserAnswer (user_answers : List Submission) (i : ℕ) : Submission :=
  user_answers.getD i
    (Submission.dict (PyField.ok []) (PyField.ok []) (PyField.ok []))

/-- One per-item result dict appended to `results`. -/
inductive GradedAnswer where
  | modeA (question : VocabQuestion) (user_pos_list user_meaning_list : List Str)
      (correct : Bool)
  | modeB (question : VocabQuestion) (user_word : Str) (correct : Bool)
  deriving DecidableEq

/-- The `correct` field of a result dict. -/
def GradedAnswer.correct : GradedAnswer → Bool
  | GradedAnswer.modeA _ _ _ c => c
  | GradedAnswer.modeB _ _ c => c

/-- Grade one question: both the mode-`'A'` branch and the else branch
call `.get` on the submission entry first, so an entry that is not a
dict raises `AttributeError` in either branch. The mode-`'A'` branch
then iterates and strips the `pos` and `meaning` values inside
`check_answer_mode_a`, raising on an ill-typed value; the else branch
strips the `word` value, raising when it is not a string. Each branch
touches only the fields it uses. -/
def gradeOne (question : VocabQuestion) (mode : Str) (sub : Submission) :
    Except Str GradedAnswer :=
  match sub with
  | Submission.malformed =>
    Except.error ['A', 't', 't', 'r', 'E', 'r', 'r']
  | Submission.dict user_pos user_meaning user_word =>
    if mode = ['A'] then
      match user_pos, user_meaning with
      | PyField.ok lp, PyField.ok lm =>
        Except.ok (GradedAnswer.modeA question lp lm
          (question.check_answer_mode_a lp lm))
      | _, _ => Except.error ['T', 'y', 'p', 'e', 'E', 'r', 'r']
    else
      match user_word with
      | PyField.ok w =>
        Except.ok (GradedAnswer.modeB question w
          (question.check_answer_mode_b w))
      | PyField.bad => Except.error ['T', 'y', 'p', 'e', 'E', 'r', 'r']

/-- The grading loop over `zip(questions, question_modes)` with running
index `i`: accumulates the result list and the running `correct_count`;
an exception anywhere aborts the whole loop. -/
def gradeLoop (user_answers : List Submission) :
    ℕ → List (VocabQuestion × Str) → Except Str (List GradedAnswer × ℕ)
  | _, [] => Except.ok ([], 0)
  | i, (q, m) :: rest =>
    match gradeOne q m (getUserAnswer user_answers i) with
    | Except.error e => Except.error e
    | Except.ok g =>
      match gradeLoop user_answers (i + 1) rest with
      | Except.error e => Except.error e
      | Except.ok (gs, c) =>
        Except.ok (g :: gs, (if g.correct then 1 else 0) + c)

/-- The `result_data` payload stored by `submit_answers`. -/
structure ResultData where
  results : List GradedAnswer
  correct_count : ℕ
  total_time : ℤ
  deriving DecidableEq

/-- The grading core of `submit_answers`: run the loop, then compute
`total_time = int(end_time - start_time)`; any exception in the loop is
caught by the route's outer handler, which returns a failure response
instead of a result. -/
def submitAnswersCore (questions : List VocabQuestion) (question_modes : List Str)
    (user_answers : List Submission) (start_time end_time : ℚ) :
    Except Str ResultData :=
  match gradeLoop user_answers 0 (questions.zip question_modes) with
  | Except.error e => Except.error e
  | Except.ok (results, correct_count) =>
    Except.ok
      { results := results
        correct_count := correct_count
        total_time := pyIntTrunc (end_time - start_time) }

/-! ## Ephemeral quiz-data store (`save_quiz_data` etc.) -/

section Store

variable {α : Type}

/-- The `quiz_sessions` directory: one record per `.pkl` file, carrying
the quiz id (file stem), the pickled blob and the file's mtime. -/
abbrev Store (α : Type) := List (Str × α × ℚ)

/-- `save_quiz_data`: write (or overwrite) the file named by `quiz_id`. -/
def save_quiz_data (store : Store α) (quiz_id : Str) (blob : α) (now : ℚ) :
    Store α :=
  (quiz_id, blob, now) :: store.filter (fun r => !decide (r.1 = quiz_id))

/-- `load_quiz_data`: return the blob of the file named by `quiz_id`, or
`none` when no such file exists. -/
def load_quiz_data (store : Store α) (quiz_id : Str) : Option α :=
  (store.find? (fun r => decide (r.1 = quiz_id))).map (fun r => r.2.1)

/-- `delete_quiz_data`: unlink the file named by `quiz_id` if present;
no-op otherwise. -/
def delete_quiz_data (store : Store α) (quiz_id : Str) : Store α :=
  store.filter (fun r => !decide (r.1 = quiz_id))

/-- `cleanup_old_quiz_files`: unlink every `.pkl` file whose age exceeds
7200 seconds; keep the rest. -/
def cleanup_old_quiz_files (store : Store α) (current_time : ℚ) : Store α :=
  store.filter (fun r => !decide (current_time - r.2.2 > 7200))

end Store

/-! ## Spec-side derived sets

The spec derives `posSet`/`meaningSet` with *empty fragments discarded*;
the code's `set(self.pos_list)` keeps empty fragments. The following two
definitions follow the spec's words, for comparison with
`check_answer_mode_a`. -/

/-- Per the spec: `posSet` = set of trimmed non-empty tags from
`partsOfSpeech`. -/
def specPosSet (q : VocabQuestion) : Finset Str :=
  (q.pos_list.filter (fun p => !p.isEmpty)).toFinset

/-- Per the spec: `meaningSet` = set of trimmed non-empty fragments from
`meaning`. -/
def specMeaningSet (q : VocabQuestion) : Finset Str :=
  (q.meaning_list.filter (fun p => !p.isEmpty)).toFinset

/-! ## C3: mode-B grading -/

/-- C3: the mode-B check returns true iff the submitted word, trimmed and
lowercased, equals the stored word lowercased; `"Apple "` matches stored
`"apple"` and `"appl"` does not. -/
theorem C3_mode_b_check :
    (∀ (q : VocabQuestion) (u : Str),
        q.check_answer_mode_b u = true ↔ pyLower (pyStrip u) = pyLower q.word) ∧
    (mkVocabQuestion ['a', 'p', 'p', 'l', 'e'] ['n'] ['x']).check_answer_mode_b
        ['A', 'p', 'p', 'l', 'e', ' '] = true ∧
    (mkVocabQuestion ['a', 'p', 'p', 'l', 'e'] ['n'] ['x']).check_answer_mode_b
        ['a', 'p', 'p', 'l'] = false := by
  refine ⟨fun q u => ?_, by decide, by decide⟩
  simp [VocabQuestion.check_answer_mode_b]

/-! ## C2: mode-A grading -/

/-- C2 counterexample: for the item `("w", "a&", "m")` the spec-side sets
(trimmed, empties discarded) are exactly matched by the submission
`(["a"], ["m"])`, yet the code grades it wrong, because
`set(self.pos_list)` keeps the empty fragment produced by the trailing
`'&'`. -/
theorem C2_counterexample :
    userCleanSet [['a']] = specPosSet (mkVocabQuestion ['w'] ['a', '&'] ['m']) ∧
    userCleanSet [['m']] = specMeaningSet (mkVocabQuestion ['w'] ['a', '&'] ['m']) ∧
    (mkVocabQuestion ['w'] ['a', '&'] ['m']).check_answer_mode_a
        [['a']] [['m']] = false := by
  decide

/-- C2 amended: the mode-A check returns true iff the set of trimmed
non-empty submitted tags equals the set of *all* trimmed tags obtained by
splitting `pos` on `'&'` (empty fragments retained), and likewise for the
meaning fragments. -/
theorem C2_amended :
    ∀ (q : VocabQuestion) (user_pos user_meaning : List Str),
      q.check_answer_mode_a user_pos user_meaning = true ↔
        (((user_pos.map pyStrip).filter (fun p => !p.isEmpty)).toFinset =
            ((pySplit '&' q.pos).map pyStrip).toFinset ∧
          ((user_meaning.map pyStrip).filter (fun p => !p.isEmpty)).toFinset =
            ((pySplit '&' q.meaning).map pyStrip).toFinset) := by
  intro q up um
  simp [VocabQuestion.check_answer_mode_a, userCleanSet,
    VocabQuestion.pos_list, VocabQuestion.meaning_list]

/-! ## C1: empty-word items and skipped questions -/

/-- C1 counterexample: the item `(" ", "n", "cat")` has an empty word
after trimming, and the empty submission (what a skipped question is
graded with) is graded *correct* by the mode-B check, not wrong. -/
theorem C1_counterexample :
    (mkVocabQuestion [' '] ['n'] ['c', 'a', 't']).word = [] ∧
    (mkVocabQuestion [' '] ['n'] ['c', 'a', 't']).check_answer_mode_b [] = true := by
  decide

/-- C1 amended: for an item with empty word, the mode-B check succeeds
exactly on submissions that trim to empty (so a skipped question is
graded correct, via `gradeOne` with the default empty answer); for an
item with non-empty word, the empty submission is graded wrong; and the
empty mode-A submission is graded wrong for every item. -/
theorem C1_amended :
    (∀ (q : VocabQuestion) (u : Str), q.word = [] →
        (q.check_answer_mode_b u = true ↔ pyStrip u = [])) ∧
    (∀ q : VocabQuestion, q.word ≠ [] → q.check_answer_mode_b [] = false) ∧
    (∀ q : VocabQuestion, q.check_answer_mode_a [] [] = false) ∧
    (∀ q : VocabQuestion, q.word = [] →
        gradeOne q ['B'] (getUserAnswer [] 0) =
          Except.ok (GradedAnswer.modeB q [] true)) := by
  have hb : ∀ (q : VocabQuestion) (u : Str), q.word = [] →
      (q.check_answer_mode_b u = true ↔ pyStrip u = []) := by
    intro q u h
    simp [VocabQuestion.check_answer_mode_b, h, pyLower]
  refine ⟨hb, ?_, ?_, ?_⟩
  · intro q h
    simp [VocabQuestion.check_answer_mode_b, pyLower, pyStrip, h]
  · intro q
    have h1 : q.pos_list ≠ [] := by
      simp only [VocabQuestion.pos_list, ne_eq, List.map_eq_nil_iff]
      exact pySplit_ne_nil '&' q.pos
    have h2 : (∅ : Finset Str) ≠ q.pos_list.toFinset := by
      intro hc
      exact h1 (List.toFinset_eq_empty_iff _ |>.mp hc.symm)
    simp [VocabQuestion.check_answer_mode_a, userCleanSet, h2]
  · intro q h
    have := (hb q [] h).mpr rfl
    simp [gradeOne, getUserAnswer, this]

/-- C1 amended, instantiated: concrete items with empty and non-empty
words, a whitespace-only submission, and a skipped question. -/
theorem C1_witness :
    ((mkVocabQuestion [] ['n'] ['m']).word = [] ∧
      ((mkVocabQuestion [] ['n'] ['m']).check_answer_mode_b [' '] = true ↔
        pyStrip [' '] = [])) ∧
    ((mkVocabQuestion ['a'] ['n'] ['m']).word ≠ [] ∧
      (mkVocabQuestion ['a'] ['n'] ['m']).check_answer_mode_b [] = false) ∧
    (mkVocabQuestion ['a'] ['n'] ['m']).check_answer_mode_a [] [] = false ∧
    gradeOne (mkVocabQuestion [] ['n'] ['m']) ['B'] (getUserAnswer [] 0) =
      Except.ok (GradedAnswer.modeB (mkVocabQuestion [] ['n'] ['m']) [] true) :=
  ⟨⟨by decide, C1_amended.1 _ [' '] (by decide)⟩,
    ⟨by decide, C1_amended.2.1 _ (by decide)⟩,
    C1_amended.2.2.1 _,
    C1_amended.2.2.2 _ (by decide)⟩

/-! ## C10: extra tab-separated fields are discarded -/

/-- C10: a non-blank line whose tab-split has at least three fields
yields the item built from exactly the first three fields; fields four
onward do not influence the parsed item. -/
theorem C10_first_three_fields :
    ∀ (line w p m : Str) (rest : List Str),
      pySplit '\t' (pyStrip line) = w :: p :: m :: rest →
      parseLine line = some (mkVocabQuestion w p m) := by
  intro line w p m rest h
  have hl : pyStrip line ≠ [] := by
    intro h0
    rw [h0] at h
    simp [pySplit] at h
  unfold parseLine
  rw [if_neg hl, h]

/-- C10, instantiated at the line `"a\tb\tc\td"`: the fourth field `"d"`
is discarded. -/
theorem C10_witness :
    pySplit '\t' (pyStrip ['a', '\t', 'b', '\t', 'c', '\t', 'd']) =
        ['a'] :: ['b'] :: ['c'] :: [['d']] ∧
    parseLine ['a', '\t', 'b', '\t', 'c', '\t', 'd'] =
      some (mkVocabQuestion ['a'] ['b'] ['c']) :=
  ⟨by decide, C10_first_three_fields _ ['a'] ['b'] ['c'] [['d']] (by decide)⟩

/-! ## C4: quiz sizing -/

/-- C4: for a non-empty pool of `N` items, ratio mode selects
`clamp(max(1, round(N * r)), 1, N)` items (with Python's `round`), custom
mode with integer `n` selects `clamp(n, 1, N)` items, and an unparseable
custom count selects the full pool size. -/
theorem C4_target_count (N : ℤ) (hN : 1 ≤ N) :
    (∀ r : ℚ, computeTargetCount N (CountMode.ratio r) =
        min (max 1 (pyRound ((N : ℚ) * r))) N) ∧
    (∀ n : ℤ, computeTargetCount N (CountMode.custom (some n)) = min (max n 1) N) ∧
    computeTargetCount N (CountMode.custom none) = N := by
  refine ⟨fun r => ?_, fun n => ?_, ?_⟩ <;>
    simp only [computeTargetCount] <;> split_ifs <;> omega

/-- C4, instantiated at a pool of 4 items, ratio 7/8 (which rounds
3.5 half-to-even up to 4), custom count 9 and an unparseable custom
count. -/
theorem C4_witness :
    (1 : ℤ) ≤ 4 ∧
    computeTargetCount 4 (CountMode.ratio (7 / 8)) =
      min (max 1 (pyRound ((4 : ℚ) * (7 / 8)))) 4 ∧
    computeTargetCount 4 (CountMode.custom (some 9)) = min (max 9 1) 4 ∧
    computeTargetCount 4 (CountMode.custom none) = 4 ∧
    computeTargetCount 4 (CountMode.ratio (7 / 8)) = 4 ∧
    computeTargetCount 4 (CountMode.custom (some 9)) = 4 :=
  ⟨by decide, (C4_target_count 4 (by decide)).1 (7 / 8),
    (C4_target_count 4 (by decide)).2.1 9,
    (C4_target_count 4 (by decide)).2.2, by with_unfolding_all decide,
    by with_unfolding_all decide⟩

/-! ## C5: quiz-spec invariant and no duplicate draws -/

/-- C5: for any sample drawn by `random.sample` (distinct pool indices,
`target_count` of them, with `target_count ≥ 1`) and any reordering of it
by `random.shuffle`, the assembled quiz data has as many modes as
questions, at least one question, and no duplicated pool index. -/
theorem C5_quiz_spec_invariant :
    ∀ (pool : List VocabQuestion) (sel shuffled : List (Fin pool.length))
      (test_mode : Str) (coin : ℕ → Str) (t : ℚ) (target_count : ℕ),
      sel.Nodup → sel.length = target_count → 1 ≤ target_count →
      shuffled.Perm sel →
      ((buildQuizData pool shuffled test_mode coin t).questions.length =
          (buildQuizData pool shuffled test_mode coin t).question_modes.length ∧
        0 < (buildQuizData pool shuffled test_mode coin t).questions.length ∧
        shuffled.Nodup) := by
  intro pool sel shuffled test_mode coin t k h1 h2 h3 hp
  have hlen : shuffled.length = sel.length := hp.length_eq
  refine ⟨?_, ?_, hp.nodup_iff.mpr h1⟩
  · simp [buildQuizData, assignModes]
  · simp only [buildQuizData, List.length_map]
    omega

/-- A concrete two-item pool for instantiating the assembly invariant. -/
def samplePool : List VocabQuestion :=
  [mkVocabQuestion ['a'] ['n'] ['x'], mkVocabQuestion ['b'] ['v'] ['y']]

/-- C5, instantiated: the draw `[1, 0]` from the two-item pool, shuffled
to `[0, 1]`, yields a quiz with two questions, two modes and distinct
indices. -/
theorem C5_witness :
    (([⟨1, by decide⟩, ⟨0, by decide⟩] : List (Fin samplePool.length)).Nodup ∧
      ([⟨1, by decide⟩, ⟨0, by decide⟩] : List (Fin samplePool.length)).length = 2 ∧
      1 ≤ 2 ∧
      ([⟨0, by decide⟩, ⟨1, by decide⟩] : List (Fin samplePool.length)).Perm
        [⟨1, by decide⟩, ⟨0, by decide⟩]) ∧
    ((buildQuizData samplePool [⟨0, by decide⟩, ⟨1, by decide⟩]
          ['C'] (fun _ => ['A']) 0).questions.length =
        (buildQuizData samplePool [⟨0, by decide⟩, ⟨1, by decide⟩]
          ['C'] (fun _ => ['A']) 0).question_modes.length ∧
      0 < (buildQuizData samplePool [⟨0, by decide⟩, ⟨1, by decide⟩]
          ['C'] (fun _ => ['A']) 0).questions.length ∧
      ([⟨0, by decide⟩, ⟨1, by decide⟩] : List (Fin samplePool.length)).Nodup) :=
  ⟨⟨by decide, by decide, by decide, by decide⟩,
    C5_quiz_spec_invariant samplePool [⟨1, by decide⟩, ⟨0, by decide⟩]
      [⟨0, by decide⟩, ⟨1, by decide⟩] ['C'] (fun _ => ['A']) 0 2
      (by decide) (by decide) (by decide) (by decide)⟩

/-! ## C6: aggregate score and elapsed time -/

/-- The running `correct_count` maintained by the grading loop equals the
number of graded answers whose `correct` flag is set. -/
theorem gradeLoop_correct_count (user_answers : List Submission) :
    ∀ (l : List (VocabQuestion × Str)) (i : ℕ) (gs : List GradedAnswer) (c : ℕ),
      gradeLoop user_answers i l = Except.ok (gs, c) →
      c = (gs.filter GradedAnswer.correct).length := by
  intro l
  induction l with
  | nil =>
    intro i gs c h
    simp only [gradeLoop, Except.ok.injEq, Prod.mk.injEq] at h
    obtain ⟨h1, h2⟩ := h
    subst h1 h2
    rfl
  | cons p rest ih =>
    intro i gs c h
    obtain ⟨q, m⟩ := p
    simp only [gradeLoop] at h
    cases hg : gradeOne q m (getUserAnswer user_answers i) with
    | error e => rw [hg] at h; simp at h
    | ok g =>
      rw [hg] at h
      cases hrec : gradeLoop user_answers (i + 1) rest with
      | error e => rw [hrec] at h; simp at h
      | ok pr =>
        obtain ⟨gs', c'⟩ := pr
        rw [hrec] at h
        simp only [Except.ok.injEq, Prod.mk.injEq] at h
        obtain ⟨h1, h2⟩ := h
        subst h1 h2
        have hc' := ih (i + 1) gs' c' hrec
        cases hcor : g.correct <;>
          simp [List.filter_cons, hcor, hc', Nat.add_comm]

/-- C6 counterexample: grading one skipped mode-B question with
`start_time = 10` and `end_time = 4.5` yields `total_time = -5`: the
elapsed time is `int(end - start)` with no clamping, so it can be
negative (and for negative fractional differences it truncates toward
zero, where `floor` would give `-6`). -/
theorem C6_counterexample :
    submitAnswersCore [mkVocabQuestion ['c', 'a', 't'] ['n'] ['x']] [['B']] []
        10 (9 / 2) =
      Except.ok
        (⟨[GradedAnswer.modeB (mkVocabQuestion ['c', 'a', 't'] ['n'] ['x']) [] false],
          0, -5⟩ : ResultData) ∧
    (-5 : ℤ) < 0 :=
  ⟨by with_unfolding_all rfl, by decide⟩

/-- C6 amended: whenever grading succeeds, `correct_count` is exactly the
number of per-item verdicts marked correct, and `total_time` is the
truncation toward zero of `end_time - start_time`, with no clamping; it
is negative exactly when the difference is at most -1 (a difference in
(-1, 0) truncates to 0); when `end_time ≥ start_time` it coincides with
the floor and is non-negative. -/
theorem C6_amended :
    ∀ (questions : List VocabQuestion) (question_modes : List Str)
      (user_answers : List Submission) (s e : ℚ) (rd : ResultData),
      submitAnswersCore questions question_modes user_answers s e = Except.ok rd →
      (rd.correct_count = (rd.results.filter GradedAnswer.correct).length ∧
        rd.total_time = pyIntTrunc (e - s) ∧
        (rd.total_time < 0 ↔ e - s ≤ -1) ∧
        (s ≤ e → rd.total_time = (e - s).floor ∧ 0 ≤ rd.total_time)) := by
  intro qs ms ua s e rd h
  simp only [submitAnswersCore] at h
  cases hg : gradeLoop ua 0 (qs.zip ms) with
  | error e' => rw [hg] at h; simp at h
  | ok pr =>
    obtain ⟨gs, c⟩ := pr
    rw [hg] at h
    simp only [Except.ok.injEq] at h
    subst h
    refine ⟨gradeLoop_correct_count ua _ 0 gs c hg, rfl,
      pyIntTrunc_neg_iff (e - s), fun hse => ?_⟩
    have h0 : (0 : ℚ) ≤ e - s := by linarith
    have hfloor : pyIntTrunc (e - s) = (e - s).floor := by
      simp [pyIntTrunc, h0]
    refine ⟨hfloor, ?_⟩
    show (0 : ℤ) ≤ pyIntTrunc (e - s)
    rw [hfloor]
    exact Rat.le_floor.mpr (by exact_mod_cast h0)

/-- C6 amended, instantiated: a one-question quiz graded with no answers
between times 0 and 1.5 has zero correct answers and elapsed time 1. -/
theorem C6_witness :
    (⟨[GradedAnswer.modeB (mkVocabQuestion ['c', 'a', 't'] ['n'] ['x']) [] false],
        0, 1⟩ : ResultData).correct_count =
      ((⟨[GradedAnswer.modeB (mkVocabQuestion ['c', 'a', 't'] ['n'] ['x']) [] false],
          0, 1⟩ : ResultData).results.filter GradedAnswer.correct).length ∧
    (⟨[GradedAnswer.modeB (mkVocabQuestion ['c', 'a', 't'] ['n'] ['x']) [] false],
        0, 1⟩ : ResultData).total_time = pyIntTrunc (3 / 2 - 0) ∧
    ((⟨[GradedAnswer.modeB (mkVocabQuestion ['c', 'a', 't'] ['n'] ['x']) [] false],
        0, 1⟩ : ResultData).total_time < 0 ↔ (3 / 2 - 0 : ℚ) ≤ -1) ∧
    ((0 : ℚ) ≤ 3 / 2 →
      (⟨[GradedAnswer.modeB (mkVocabQuestion ['c', 'a', 't'] ['n'] ['x']) [] false],
          0, 1⟩ : ResultData).total_time = ((3 : ℚ) / 2 - 0).floor ∧
      (0 : ℤ) ≤ (⟨[GradedAnswer.modeB (mkVocabQuestion ['c', 'a', 't'] ['n'] ['x']) [] false],
          0, 1⟩ : ResultData).total_time) :=
  C6_amended [mkVocabQuestion ['c', 'a', 't'] ['n'] ['x']] [['B']] [] 0 (3 / 2)
    ⟨[GradedAnswer.modeB (mkVocabQuestion ['c', 'a', 't'] ['n'] ['x']) [] false], 0, 1⟩
    (by with_unfolding_all rfl)

/-! ## C7: grading and malformed submissions -/

/-- Grading a submission entry that is a dict with well-typed field
values never raises, under either mode. -/
theorem gradeOne_wellFormed_ok (q : VocabQuestion) (m : Str)
    (pos meaning : List Str) (word : Str) :
    ∃ g, gradeOne q m
        (Submission.dict (PyField.ok pos) (PyField.ok meaning)
          (PyField.ok word)) = Except.ok g := by
  by_cases hm : m = ['A']
  · exact ⟨GradedAnswer.modeA q pos meaning (q.check_answer_mode_a pos meaning),
      by simp [gradeOne, hm]⟩
  · exact ⟨GradedAnswer.modeB q word (q.check_answer_mode_b word),
      by simp [gradeOne, hm]⟩

/-- When every supplied submission entry is a dict with well-typed field
values, the grading loop completes with one graded answer per zipped
question. -/
theorem gradeLoop_ok_of_wellFormed (user_answers : List Submission)
    (hd : ∀ a ∈ user_answers, a.wellFormed = true) :
    ∀ (l : List (VocabQuestion × Str)) (i : ℕ),
      ∃ gs c, gradeLoop user_answers i l = Except.ok (gs, c) ∧
        gs.length = l.length := by
  intro l
  induction l with
  | nil => intro i; exact ⟨[], 0, rfl, rfl⟩
  | cons p rest ih =>
    intro i
    obtain ⟨q, m⟩ := p
    have hsub : (getUserAnswer user_answers i).wellFormed = true := by
      unfold getUserAnswer
      rw [List.getD_eq_getElem?_getD]
      cases hget : user_answers[i]? with
      | none => simp [Submission.wellFormed]
      | some a =>
        simp only [Option.getD_some]
        exact hd a (List.getElem?_mem hget)
    obtain ⟨g, hg⟩ : ∃ g, gradeOne q m (getUserAnswer user_answers i) = Except.ok g := by
      cases hsa : getUserAnswer user_answers i with
      | malformed => rw [hsa] at hsub; simp [Submission.wellFormed] at hsub
      | dict pos meaning word =>
        rw [hsa] at hsub
        cases pos with
        | bad => simp [Submission.wellFormed] at hsub
        | ok lp =>
          cases meaning with
          | bad => simp [Submission.wellFormed] at hsub
          | ok lm =>
            cases word with
            | bad => simp [Submission.wellFormed] at hsub
            | ok w => exact gradeOne_wellFormed_ok q m lp lm w
    obtain ⟨gs, c, hr, hl⟩ := ih (i + 1)
    refine ⟨g :: gs, (if g.correct then 1 else 0) + c, ?_, by simp [hl]⟩
    simp only [gradeLoop, hg, hr]

/-- C7 counterexample: a single submission entry that is not a dict makes
the whole grade abort with an `AttributeError` caught by the route's
catch-all handler, which returns a failure response instead of any
result set. -/
theorem C7_counterexample :
    submitAnswersCore [mkVocabQuestion ['c', 'a', 't'] ['n'] ['x']] [['A']]
        [Submission.malformed] 0 1 =
      Except.error ['A', 't', 't', 'r', 'E', 'r', 'r'] := by
  with_unfolding_all rfl

/-- C7 amended: grading returns a fully-formed result set with one
verdict per zipped item whenever every supplied per-item entry is a dict
whose `pos`/`meaning` values are lists of strings and whose `word` value
is a string (missing entries beyond the list's end degrade to the
well-typed empty answers, never to a fault); an entry that is not a
dict, or a mode-A entry whose `pos` value is ill-typed, aborts the whole
grade instead. -/
theorem C7_amended :
    (∀ (questions : List VocabQuestion) (question_modes : List Str)
        (user_answers : List Submission) (s e : ℚ),
      (∀ a ∈ user_answers, a.wellFormed = true) →
      ∃ rd, submitAnswersCore questions question_modes user_answers s e =
          Except.ok rd ∧
        rd.results.length = (questions.zip question_modes).length ∧
        (questions.length = question_modes.length →
          rd.results.length = questions.length)) ∧
    (∀ (q : VocabQuestion) (mf : PyField (List Str)) (wf : PyField Str)
        (s e : ℚ),
      submitAnswersCore [q] [['A']]
          [Submission.dict PyField.bad mf wf] s e =
        Except.error ['T', 'y', 'p', 'e', 'E', 'r', 'r']) := by
  constructor
  · intro qs ms ua s e hd
    obtain ⟨gs, c, hr, hl⟩ := gradeLoop_ok_of_wellFormed ua hd (qs.zip ms) 0
    refine ⟨⟨gs, c, pyIntTrunc (e - s)⟩, ?_, hl, fun heq => ?_⟩
    · simp [submitAnswersCore, hr]
    · rw [hl, List.length_zip, heq, min_self]
  · intro q mf wf s e
    rfl

/-- C7 amended, instantiated: one question with one well-typed dict entry
grades successfully with one verdict; the same question with a dict entry
whose `pos` value is ill-typed aborts the grade. -/
theorem C7_witness :
    ((∀ a ∈ [Submission.dict (PyField.ok [['n']]) (PyField.ok [['x']])
          (PyField.ok [])], a.wellFormed = true) ∧
      ∃ rd, submitAnswersCore [mkVocabQuestion ['c', 'a', 't'] ['n'] ['x']] [['A']]
          [Submission.dict (PyField.ok [['n']]) (PyField.ok [['x']])
            (PyField.ok [])] 0 1 = Except.ok rd ∧
        rd.results.length =
          (([mkVocabQuestion ['c', 'a', 't'] ['n'] ['x']].zip [['A']])).length ∧
        ([mkVocabQuestion ['c', 'a', 't'] ['n'] ['x']].length = [['A']].length →
          rd.results.length =
            [mkVocabQuestion ['c', 'a', 't'] ['n'] ['x']].length)) ∧
    submitAnswersCore [mkVocabQuestion ['c', 'a', 't'] ['n'] ['x']] [['A']]
        [Submission.dict PyField.bad (PyField.ok [['x']]) (PyField.ok [])] 0 1 =
      Except.error ['T', 'y', 'p', 'e', 'E', 'r', 'r'] :=
  ⟨⟨by decide,
    C7_amended.1 [mkVocabQuestion ['c', 'a', 't'] ['n'] ['x']] [['A']]
      [Submission.dict (PyField.ok [['n']]) (PyField.ok [['x']])
        (PyField.ok [])] 0 1 (by decide)⟩,
    C7_amended.2 (mkVocabQuestion ['c', 'a', 't'] ['n'] ['x'])
      (PyField.ok [['x']]) (PyField.ok []) 0 1⟩

/-! ## C8: loading the durable banks -/

/-- `loadLoop` returns exactly the banks of the longest prefix whose
records all parse, in order. -/
theorem loadLoop_eq_takeWhile :
    ∀ data : List (Str × List QRecord),
      loadLoop data =
        (data.takeWhile (fun p => (parseQuestions p.2).isSome)).map
          (fun p => (p.1, (parseQuestions p.2).getD [])) := by
  intro data
  induction data with
  | nil => rfl
  | cons p rest ih =>
    obtain ⟨name, recs⟩ := p
    cases hp : parseQuestions recs with
    | none => simp [loadLoop, hp, List.takeWhile_cons]
    | some qs => simp [loadLoop, hp, List.takeWhile_cons, ih]

/-- C8 counterexample: a decoded file whose first bank is well-formed and
whose second bank has a record missing a key does *not* yield an empty
mapping — the first bank is returned. -/
theorem C8_counterexample :
    load_banks (BanksFile.parsed
        [(['g'], [QRecord.record ['a'] ['b'] ['c']]),
          (['b'], [QRecord.missingField])]) =
      [(['g'], [mkVocabQuestion ['a'] ['b'] ['c']])] ∧
    [(['g'], [mkVocabQuestion ['a'] ['b'] ['c']])] ≠
      ([] : List (Str × List VocabQuestion)) := by
  decide

/-- C8 amended: a missing or undecodable file yields the empty mapping;
a decoded file yields the banks of the longest all-well-formed prefix (so
a malformed record yields the partial mapping built before the error, not
necessarily empty); in particular a fully well-formed file yields the
full mapping. `load_banks` is total: it never propagates a failure. -/
theorem C8_amended :
    load_banks BanksFile.missing = [] ∧
    load_banks BanksFile.corrupt = [] ∧
    (∀ data : List (Str × List QRecord),
        load_banks (BanksFile.parsed data) =
          (data.takeWhile (fun p => (parseQuestions p.2).isSome)).map
            (fun p => (p.1, (parseQuestions p.2).getD []))) ∧
    (∀ data : List (Str × List QRecord),
        (∀ p ∈ data, (parseQuestions p.2).isSome = true) →
        load_banks (BanksFile.parsed data) =
          data.map (fun p => (p.1, (parseQuestions p.2).getD []))) := by
  refine ⟨rfl, rfl, loadLoop_eq_takeWhile, ?_⟩
  intro data hall
  show loadLoop data = _
  rw [loadLoop_eq_takeWhile]
  congr 1
  induction data with
  | nil => rfl
  | cons p rest ih =>
    rw [List.takeWhile_cons, if_pos (hall p (by simp))]
    rw [ih (fun r hr => hall r (by simp [hr]))]

/-- C8 amended, instantiated: a single well-formed bank loads in full. -/
theorem C8_witness :
    (∀ p ∈ [((['g'] : Str), [QRecord.record ['a'] ['b'] ['c']])],
        (parseQuestions p.2).isSome = true) ∧
    load_banks (BanksFile.parsed [(['g'], [QRecord.record ['a'] ['b'] ['c']])]) =
      [(['g'], [QRecord.record ['a'] ['b'] ['c']])].map
        (fun p => (p.1, (parseQuestions p.2).getD [])) :=
  ⟨by decide,
    C8_amended.2.2.2 [(['g'], [QRecord.record ['a'] ['b'] ['c']])] (by decide)⟩

/-! ## C9: ephemeral store algebra -/

/-- Looking up a key among records from which every record with that key
has been removed finds nothing. -/
theorem find?_filter_ne {α : Type} (id : Str) :
    ∀ l : Store α,
      (l.filter (fun r => !decide (r.1 = id))).find?
        (fun r => decide (r.1 = id)) = none := by
  intro l
  induction l with
  | nil => rfl
  | cons x xs ih =>
    by_cases hx : x.1 = id
    · simp [List.filter_cons, hx, ih]
    · simp [List.filter_cons, List.find?_cons, hx, ih]

/-- C9: saving then loading the same id returns the saved blob; loading
after deleting an id returns `none` (and `load_quiz_data` is a total
function into `Option`, so a missing id can never raise); the cleanup
sweep keeps exactly the records whose age does not exceed the 7200-second
threshold, leaving every newer record untouched. -/
theorem C9_store_ops :
    ∀ (α : Type) (store : Store α) (quiz_id : Str) (blob : α) (now : ℚ)
      (id2 : Str) (t : ℚ) (r : Str × α × ℚ),
      load_quiz_data (save_quiz_data store quiz_id blob now) quiz_id = some blob ∧
      load_quiz_data (delete_quiz_data store id2) id2 = none ∧
      (r ∈ cleanup_old_quiz_files store t ↔ r ∈ store ∧ ¬(t - r.2.2 > 7200)) := by
  intro α store id blob now id2 t r
  refine ⟨?_, ?_, ?_⟩
  · simp [load_quiz_data, save_quiz_data, List.find?_cons]
  · simp [load_quiz_data, delete_quiz_data, find?_filter_ne]
  · simp [cleanup_old_quiz_files, List.mem_filter]

end VocabApp
